import Mathlib

/-
Verification of the connection-escalation / schema-mapping engine and the
SQL-extraction protocol of the db_agent package.

Shallow embedding notes:
* Python strings are modelled as Lean `String`/`List Char`; the whitespace
  predicate and the case-mapping functions cover the ASCII fragment of
  Python's `str.strip` / `str.upper` / `str.lower` (all inputs appearing in
  this development are ASCII).
* Python dicts (connection parameter sets, environment snapshots, the
  manager's caches) are modelled as insertion-ordered association lists with
  Python's update semantics (`assocSet`).
* External collaborators (mysql-connector handles, cursors, the LLM
  provider) are modelled by an `Oracle` of outcome functions; an
  `Except Unit α` outcome with value `.error ()` models a raised exception.
-/

namespace DB

/-- ASCII fragment of Python's whitespace class (`str.strip`, regex `\s`). -/
def pySpace (c : Char) : Bool :=
  c = ' ' || c = '\t' || c = '\n' || c = '\r' || c = '\x0b' || c = '\x0c'

/-- Strip leading whitespace from a character list. -/
def dropSpace (l : List Char) : List Char := l.dropWhile pySpace

/-- Python `str.strip()` on a character list: drop whitespace at both ends. -/
def stripL (l : List Char) : List Char :=
  (dropSpace ((dropSpace l.reverse).reverse))

/-- Python `str.strip()`. -/
def pyStrip (s : String) : String := ⟨stripL s.data⟩

/-- ASCII fragment of Python `str.upper()`. -/
def pyUpper (s : String) : String := ⟨s.data.map Char.toUpper⟩

/-- ASCII fragment of Python `str.lower()`. -/
def pyLower (s : String) : String := ⟨s.data.map Char.toLower⟩

/-- Python `str.split('\n')` on a character list; always returns at least
one (possibly empty) line, mirroring `''.split('\n') == ['']`. -/
def splitOnNl : List Char → List (List Char)
  | [] => [[]]
  | c :: cs =>
    if c = '\n' then [] :: splitOnNl cs
    else
      match splitOnNl cs with
      | l :: ls => (c :: l) :: ls
      | [] => [[c]]

/-- Index of the first occurrence of `pat` as a contiguous sublist, if any. -/
def findSub (pat : List Char) : List Char → Option Nat
  | [] => if pat.isEmpty then some 0 else none
  | c :: cs =>
    if pat.isPrefixOf (c :: cs) then some 0
    else (findSub pat cs).map (· + 1)

/-- Value of a nonempty string of decimal digits. -/
def digitsVal : List Char → Option Nat
  | [] => none
  | l => l.foldl (fun acc c =>
      match acc with
      | none => none
      | some n => if c.isDigit then some (n * 10 + (c.toNat - '0'.toNat)) else none)
      (some 0)

/-- Python `int(str)` (ASCII fragment: optional surrounding whitespace,
optional sign, decimal digits; digit-group underscores are not modelled).
`none` models a raised `ValueError`. -/
def pyToInt (s : String) : Option Int :=
  match stripL s.data with
  | '-' :: ds => (digitsVal ds).map (fun n => -(n : Int))
  | '+' :: ds => (digitsVal ds).map (fun n => (n : Int))
  | ds => (digitsVal ds).map (fun n => (n : Int))

/-! ### Association lists with Python dict semantics -/

/-- Python `d.get(k)` / `k in d`. -/
def assocGet {α : Type} (l : List (String × α)) (k : String) : Option α :=
  match l.find? (fun kv => kv.1 = k) with
  | some kv => some kv.2
  | none => none

/-- Python `d[k] = v`: replace in place if the key exists, else append
(insertion order preserved). -/
def assocSet {α : Type} (l : List (String × α)) (k : String) (v : α) :
    List (String × α) :=
  match l with
  | [] => [(k, v)]
  | kv :: rest =>
    if kv.1 = k then (k, v) :: rest else kv :: assocSet rest k v

/-- Python `del d[k]`: removes the binding of `k`.  Dict keys are unique, so
removing every matching binding is the dict deletion (and a no-op when the
key is absent; callers below guard membership first, as the source does). -/
def assocDel {α : Type} (l : List (String × α)) (k : String) :
    List (String × α) :=
  l.filter (fun kv => kv.1 ≠ k)

/-! ### SQL extraction (query_builder._extract_sql_from_response)

The source applies `re.findall(r"```sql\s*(.*?)\s*```", response, re.DOTALL)`
and takes `matches[0].strip()`.  Leftmost-match semantics of that pattern:
a match exists iff the first occurrence of the literal `` ```sql `` (say at
index `i`) is followed, at some index `j ≥ i + 6`, by the literal `` ``` ``;
the first group of the leftmost match is then the text strictly between
`i + 6` and the first such `j`, with the surrounding whitespace consumed by
the two `\s*`.  (A later `` ```sql `` occurrence can never yield a match when
the first one cannot, because it itself contains a closing `` ``` ``; the
lazy group makes the engine select the earliest closing fence; `strip()` of
the between-text equals the group content since `\s*` consumes exactly the
boundary whitespace.)  `extractFence` below implements exactly that. -/

def fenceTagSql : List Char := "```sql".data

def fenceClose : List Char := "```".data

/-- First-match group of the fenced-SQL regex, already stripped
(`matches[0].strip()`), or `none` when the regex does not match. -/
def extractFence (r : List Char) : Option (List Char) :=
  match findSub fenceTagSql r with
  | some i =>
    let rest := r.drop (i + 6)
    match findSub fenceClose rest with
    | some j => some (stripL (rest.take j))
    | none => none
  | none => none

/-- The statement keywords of the line-filter tier, in source order. -/
def sqlKeywords : List (List Char) :=
  ["SELECT".data, "INSERT".data, "UPDATE".data, "DELETE".data,
   "CREATE".data, "ALTER".data, "DROP".data, "SHOW".data]

/-- `line.strip().startswith(('SELECT', ...))` — tuple `startswith` is an
any-of test, case-sensitive. -/
def lineIsSql (line : List Char) : Bool :=
  sqlKeywords.any (fun kw => kw.isPrefixOf (stripL line))

/-- `QueryBuilder._extract_sql_from_response`, on character lists. -/
def extractSqlL (r : List Char) : List Char :=
  match extractFence r with
  | some sql => sql
  | none =>
    let lines := splitOnNl (stripL r)
    let sqlLines := lines.filter lineIsSql
    if sqlLines.isEmpty then stripL r
    else List.intercalate [' '] sqlLines

/-- `QueryBuilder._extract_sql_from_response` on strings. -/
def extractSqlFromResponse (r : String) : String := ⟨extractSqlL r.data⟩

/-! Spec-side formulation of claim C2, written from the claim's words:
the trimmed content of the first sql-tagged fenced block when one exists;
otherwise, when some line of the (trimmed) response has trimmed text
beginning with a statement keyword, exactly the surviving lines joined by
one space; otherwise the full trimmed response. -/

/-- Content (untrimmed) of the first fenced block tagged `sql`: the text
between the first `` ```sql `` tag and the next closing `` ``` ``. -/
def firstSqlBlockContent (r : List Char) : Option (List Char) :=
  match findSub fenceTagSql r with
  | none => none
  | some i =>
    match findSub fenceClose (r.drop (i + 6)) with
    | none => none
    | some j => some ((r.drop (i + 6)).take j)

/-- Claim C2's description of extraction, assembled from the claim text. -/
def extractSqlClaim (r : String) : String :=
  match firstSqlBlockContent r.data with
  | some content => ⟨stripL content⟩
  | none =>
    let lines := splitOnNl (stripL r.data)
    if lines.any lineIsSql then
      ⟨List.intercalate [' '] (lines.filter lineIsSql)⟩
    else ⟨stripL r.data⟩

/-! ### Data model -/

/-- A scalar value in a parameter dict (strings and ints are the only
value shapes the source puts in connection dicts). -/
inductive PVal where
  | s (v : String)
  | i (v : Int)
deriving DecidableEq, Repr

/-- Python truthiness of a parameter value. -/
def PVal.truthy : PVal → Bool
  | .s v => v ≠ ""
  | .i v => v ≠ 0

/-- A connection-parameter dict (`ConnectionParams`). -/
abbrev Params := List (String × PVal)

/-- Environment snapshot: `utils.env_loader.load_env_variables()` returns a
plain `dict[str, str]`; the empty list models the falsy empty dict. -/
abbrev Env := List (String × String)

/-- One entry of the capability report (`database_systems[kind]`). -/
structure DBInfo where
  ports_detected : List Int
  status : String
  client_available : Bool
deriving DecidableEq, Repr

/-- The `database_systems` portion of the detector report; `none` models a
missing/None `system_info` or a report without the key. -/
abbrev SystemInfo := List (String × DBInfo)

/-- A schema map: `{'tables': {name: {'columns': [...]}}}`, flattened to the
table-to-columns association (the constant outer wrapper is implicit). -/
structure SchemaMap where
  tables : List (String × List String)
deriving DecidableEq, Repr

/-- A cached connection record of the manager
(`self.connections[db_type] = {'active': ..., 'connection': ..., 'params': ...}`). -/
structure ConnRecord where
  active : Bool
  handle : Nat
  params : Params
deriving DecidableEq, Repr

/-- `DBConnector.connections`: db name to live handle. -/
abbrev ConnectorState := List (String × Nat)

/-- A row fetched from a cursor (MySQL tuples, modelled as string tuples). -/
abbrev Row := List String

/-- One element of an `execute_query` result: a data row, or the
`{"affected_rows": n}` dict produced for non-query statements. -/
inductive ResultItem where
  | row (r : Row)
  | affected (n : Int)
deriving DecidableEq, Repr

/-- Combined mutable state of `DBConnectionManager` and its `DBConnector`. -/
structure MgrState where
  connections : List (String × ConnRecord)
  db_mappings : List (String × SchemaMap)
  system_info : Option SystemInfo
  env_vars : Env
  connector : ConnectorState
deriving DecidableEq, Repr

/-- Outcomes of the external collaborators.  `Except Unit α` outcomes model
calls that may raise (`.error ()` = raised exception). -/
structure Oracle where
  /-- `mysql.connector.connect(**conn_params)`: a fresh handle, or `none`
  when the call raises (the connector catches and returns `None`). -/
  mysqlConnect : Params → Option Nat
  /-- `connection.is_connected()` on a MySQL handle. -/
  handleAlive : Nat → Except Unit Bool
  /-- `connection.closed` on a PostgreSQL handle. -/
  pgClosed : Nat → Except Unit Bool
  /-- the `SELECT 1` probe on a SQLite handle. -/
  sqliteProbe : Nat → Except Unit Unit
  /-- `connection.close()` succeeds. -/
  handleCloseOk : Nat → Bool
  /-- cursor creation + `cursor.execute` + `fetchall`/`rowcount` for a
  given (db, query, params): raised exception, or (rows, rowcount). -/
  exec : String → String → Option (List PVal) → Except Unit (List Row × Int)
  /-- `connection.commit()` succeeds for a given (db, query). -/
  commitOk : String → String → Bool
  /-- `provider.generate_text(prompt)`. -/
  genText : String → Except Unit String

/-! ### DBConnector (db_connector.py) -/

/-- The `conn_params` dict built inside `DBConnector.connect` for MySQL:
defaults for host/port/user/password, `int()` applied to the port (a raise
is caught by the connector and yields `none` overall), `database` added only
when present and truthy. -/
def buildConnParams (params : Params) : Option Params :=
  let port? : Option Int :=
    match (assocGet params "port").getD (.i 3306) with
    | .i n => some n
    | .s v => pyToInt v
  match port? with
  | none => none
  | some port =>
    let base : Params :=
      [("host", (assocGet params "host").getD (.s "127.0.0.1")),
       ("port", .i port),
       ("user", (assocGet params "user").getD (.s "root")),
       ("password", (assocGet params "password").getD (.s ""))]
    match assocGet params "database" with
    | some d => if d.truthy then some (base ++ [("database", d)]) else some base
    | none => some base

/-- `DBConnector.connect`: only the MySQL branch exists in the source; any
other kind prints "no soportado" and returns `None`.  On success the handle
is stored under the (unmodified) `db_name` key. -/
def connectorConnect (o : Oracle) (cst : ConnectorState) (db : String)
    (params : Params) : Option Nat × ConnectorState :=
  if pyLower db = "mysql" then
    match buildConnParams params with
    | none => (none, cst)
    | some cp =>
      match o.mysqlConnect cp with
      | some h => (some h, assocSet cst db h)
      | none => (none, cst)
  else (none, cst)

/-- `DBConnector.is_connected`: membership test, then a kind-specific probe
wrapped in a `try/except` that converts any raise into `False`.  The result
is therefore always `.ok _`: this function never raises. -/
def connectorIsConnected (o : Oracle) (cst : ConnectorState) (db : String) :
    Except Unit Bool :=
  match assocGet cst db with
  | none => .ok false
  | some h =>
    let inner : Except Unit Bool :=
      if pyLower db = "mysql" then o.handleAlive h
      else if pyLower db = "postgresql" then
        match o.pgClosed h with
        | .ok c => .ok (!c)
        | .error e => .error e
      else if pyLower db = "sqlite" then
        -- the nested try returns False on a raise, like the outer one
        match o.sqliteProbe h with
        | .ok _ => .ok true
        | .error _ => .ok false
      else .ok false
    match inner with
    | .ok b => .ok b
    | .error _ => .ok false

/-- Python `str.startswith` (single-prefix form). -/
def strStarts (s pre : String) : Bool := pre.data.isPrefixOf s.data

/-- `query.strip().upper().startswith(('SELECT', 'SHOW', 'DESCRIBE'))`. -/
def isResultQuery (q : String) : Bool :=
  let u := pyUpper (pyStrip q)
  strStarts u "SELECT" || strStarts u "SHOW" || strStarts u "DESCRIBE"

/-- `DBConnector.execute_query`: `([], false)` models the
error-and-empty-list outcome; the Bool records whether `commit()` ran
successfully (always `false` on the row-returning branch). -/
def connectorExecuteQuery (o : Oracle) (cst : ConnectorState) (db : String)
    (query : String) (qparams : Option (List PVal)) : List ResultItem × Bool :=
  match assocGet cst db with
  | none => ([], false)
  | some _h =>
    match o.exec db query qparams with
    | .error _ => ([], false)
    | .ok (rows, rowcount) =>
      if isResultQuery query then (rows.map ResultItem.row, false)
      else if o.commitOk db query then ([ResultItem.affected rowcount], true)
      else ([], false)

/-- `DBConnector.close`: on a raise from `connection.close()` the entry is
not deleted and `False` is returned. -/
def connectorClose (o : Oracle) (cst : ConnectorState) (db : String) :
    Bool × ConnectorState :=
  match assocGet cst db with
  | some h =>
    if o.handleCloseOk h then (true, assocDel cst db) else (false, cst)
  | none => (false, cst)

/-! ### DBConnectionManager (db_connection_manager.py) -/

/-- The `host` entry contributed by the environment (added only if truthy). -/
def envHostField (env : Env) : Params :=
  match assocGet env "MYSQL_HOST" with
  | some h => if h ≠ "" then [("host", .s h)] else []
  | none => []

/-- The `port` entry: added only if the variable is truthy and parses as an
integer (`try: int(...) except ValueError: pass`). -/
def envPortField (env : Env) : Params :=
  match assocGet env "MYSQL_PORT" with
  | some p =>
    if p ≠ "" then
      match pyToInt p with
      | some n => [("port", .i n)]
      | none => []
    else []
  | none => []

/-- The `user` entry (added only if truthy). -/
def envUserField (env : Env) : Params :=
  match assocGet env "MYSQL_USER" with
  | some u => if u ≠ "" then [("user", .s u)] else []
  | none => []

/-- The `password` entry: added whenever the key is present, including an
empty string (`if password is not None:`). -/
def envPasswordField (env : Env) : Params :=
  match assocGet env "MYSQL_PASSWORD" with
  | some pw => [("password", .s pw)]
  | none => []

/-- The `database` entry (added only if truthy). -/
def envDatabaseField (env : Env) : Params :=
  match assocGet env "MYSQL_DATABASE" with
  | some d => if d ≠ "" then [("database", .s d)] else []
  | none => []

/-- `_get_env_params`: `None` when the env snapshot is falsy (empty).  For
mysql the params dict is built in key order type, host, port, user,
password, database from the field fragments above, and returned only when
both `'host'` and `'user'` ended up in it. -/
def getEnvParams (env : Env) (db : String) : Option Params :=
  if env = [] then none
  else if db = "mysql" then
    if envHostField env ≠ [] ∧ envUserField env ≠ [] then
      some ([("type", .s db)] ++ envHostField env ++ envPortField env
        ++ envUserField env ++ envPasswordField env ++ envDatabaseField env)
    else none
  else none

/-- `_get_system_params`: a candidate for any kind present in the detector
report; user is `root` for mysql and `postgres` for every other kind; the
port is the first detected port, else 3306 for mysql, else 5432 for
postgresql, else no port key at all. -/
def getSystemParams (sysInfo : Option SystemInfo) (db : String) :
    Option Params :=
  match sysInfo with
  | none => none
  | some dbSystems =>
    match assocGet dbSystems db with
    | none => none
    | some info =>
      let base : Params :=
        [("type", .s db), ("host", .s "127.0.0.1"),
         ("user", .s (if db = "mysql" then "root" else "postgres")),
         ("password", .s "")]
      match info.ports_detected with
      | p :: _ => some (base ++ [("port", .i p)])
      | [] =>
        if db = "mysql" then some (base ++ [("port", .i 3306)])
        else if db = "postgresql" then some (base ++ [("port", .i 5432)])
        else some base

/-- Python `repr` of a list of ints, as printed inside the diagnostic. -/
def reprIntList (l : List Int) : String :=
  "[" ++ String.intercalate ", " (l.map toString) ++ "]"

/-- `_generate_failure_message`. -/
def generateFailureMessage (st : MgrState) (db : String) : String :=
  let base := "No se pudo establecer conexión a " ++ db ++ ".\n\n"
    ++ "Por favor verifique:\n"
    ++ "1. Que el servidor de base de datos esté en ejecución\n"
  let mysqlPart :=
    if db = "mysql" then
      let envPort :=
        match (if st.env_vars = [] then none else assocGet st.env_vars "MYSQL_PORT") with
        | some p => if p ≠ "" then p else "no definido"
        | none => "no definido"
      "2. Que el puerto sea correcto (configurado: " ++ envPort ++ ")\n"
        ++ "3. Que las credenciales en el archivo .env sean correctas\n"
    else ""
  let sysPart :=
    match st.system_info with
    | some dbSystems =>
      match assocGet dbSystems db with
      | some info =>
        (if info.ports_detected ≠ [] then
          "\nSe detectaron puertos para " ++ db ++ ": "
            ++ reprIntList info.ports_detected ++ "\n"
         else "")
        ++ (if info.status = "client_only" then
          "El cliente de " ++ db
            ++ " está instalado, pero no se detectó ningún servidor en ejecución.\n"
          else "")
      | none => ""
    | none => ""
  base ++ mysqlPart ++ sysPart
    ++ "\nPuede verificar la conexión manualmente con un cliente de línea de comandos."

/-- `_try_connection`: delegate to the connector; on success store
`{'active': True, 'connection': handle, 'params': params}` under the kind.
The connector never raises, so the manager's `except` branch is never
taken; the two failure messages collapse to the `if connection:` false
branch. -/
def tryConnection (st : MgrState) (o : Oracle) (db : String) (params : Params) :
    Bool × String × MgrState :=
  match connectorConnect o st.connector db params with
  | (some h, cst') =>
    (true, "Conexión exitosa a " ++ db,
     { st with
        connections := assocSet st.connections db ⟨true, h, params⟩,
        connector := cst' })
  | (none, cst') =>
    (false, "No se pudo establecer conexión", { st with connector := cst' })

/-- Result of `connect`, extended with the (ghost) trace of the parameter
sets passed to `_try_connection`, in call order. -/
structure ConnectResult where
  success : Bool
  message : String
  state : MgrState
  attempts : List Params
deriving Repr

/-- Tier 4 of `connect` (system-detected parameters) plus the final failure
message (steps 4–5 of the source). -/
def connectSysTier (st : MgrState) (o : Oracle) (db : String)
    (att : List Params) : ConnectResult :=
  match getSystemParams st.system_info db with
  | some sp =>
    match tryConnection st o db sp with
    | (true, msg, st1) => ⟨true, msg, st1, att ++ [sp]⟩
    | (false, _, st1) =>
      ⟨false, generateFailureMessage st1 db, st1, att ++ [sp]⟩
  | none => ⟨false, generateFailureMessage st db, st, att⟩

/-- Tier 3 of `connect` (environment variables), falling through to the
system tier (step 3 of the source). -/
def connectEnvTier (st : MgrState) (o : Oracle) (db : String)
    (att : List Params) : ConnectResult :=
  match getEnvParams st.env_vars db with
  | some ep =>
    match tryConnection st o db ep with
    | (true, msg, st1) => ⟨true, msg, st1, att ++ [ep]⟩
    | (false, _, st1) => connectSysTier st1 o db (att ++ [ep])
  | none => connectSysTier st o db att

/-- Step 1 of `connect`: the reuse check on an existing active record.
Returns the (possibly demoted) state and whether the connection is reused.
A probe returning `False` does not demote the record; only a raising probe
would (`except` branch) — and `connectorIsConnected` never raises. -/
def connectStep1 (st : MgrState) (o : Oracle) (db : String) :
    MgrState × Bool :=
  match assocGet st.connections db with
  | some rec =>
    if rec.active then
      match connectorIsConnected o st.connector db with
      | .ok true => (st, true)
      | .ok false => (st, false)
      | .error _ =>
        ({ st with
            connections := assocSet st.connections db { rec with active := false } },
         false)
    else (st, false)
  | none => (st, false)

/-- `DBConnectionManager.connect`.  Step 1 checks an existing active record
(reuse on an alive probe); steps 2–4 are the custom / environment / system
parameter tiers, each short-circuiting on success. -/
def connect (st : MgrState) (o : Oracle) (dbType : String)
    (customParams : Option Params) : ConnectResult :=
  let db := pyLower dbType
  let step1 : MgrState × Bool := connectStep1 st o db
  if step1.2 then
    ⟨true, "Reutilizando conexión existente a " ++ db, step1.1, []⟩
  else
    let st0 := step1.1
    match customParams with
    | some cp =>
      if cp ≠ [] then
        match tryConnection st0 o db cp with
        | (true, msg, st1) => ⟨true, msg, st1, [cp]⟩
        | (false, _, st1) => connectEnvTier st1 o db [cp]
      else connectEnvTier st0 o db []
    | none => connectEnvTier st0 o db []

/-! ### Resolution vocabulary (spec side)

`candidates` is the ordered candidate list of the Parameter Resolver:
explicit params (when truthy), then the environment candidate, then the
capability-based candidate.  `attemptOk` says whether a `_try_connection`
attempt with the given parameters succeeds (it depends only on the oracle,
not on the manager state).  `takeThrough p l` is the prefix of `l` up to and
including the first element satisfying `p`. -/

/-- Outcome handle of one connector-level connect attempt. -/
def connAttempt (o : Oracle) (db : String) (p : Params) : Option Nat :=
  if pyLower db = "mysql" then (buildConnParams p).bind o.mysqlConnect
  else none

/-- Whether one `_try_connection` attempt succeeds. -/
def attemptOk (o : Oracle) (db : String) (p : Params) : Bool :=
  (connAttempt o db p).isSome

/-- The ordered candidate list for a connect call. -/
def candidates (st : MgrState) (db : String) (custom : Option Params) :
    List Params :=
  (match custom with
   | some cp => if cp ≠ [] then [cp] else []
   | none => [])
  ++ (getEnvParams st.env_vars db).toList
  ++ (getSystemParams st.system_info db).toList

/-- Prefix of `l` up to and including the first element satisfying `p`. -/
def takeThrough {α : Type} (p : α → Bool) : List α → List α
  | [] => []
  | x :: xs => if p x then [x] else x :: takeThrough p xs

/-- Reference evaluator: attempt a candidate list in order, short-circuiting
on the first success (the common shape of connect's tier code). -/
def runCandidates (st : MgrState) (o : Oracle) (db : String) :
    List Params → ConnectResult
  | [] => ⟨false, generateFailureMessage st db, st, []⟩
  | p :: ps =>
    match tryConnection st o db p with
    | (true, msg, st1) => ⟨true, msg, st1, [p]⟩
    | (false, _, st1) =>
      let r := runCandidates st1 o db ps
      ⟨r.success, r.message, r.state, p :: r.attempts⟩

/-- `table[0]` / `col[0]` on a fetched item: first tuple element; an empty
tuple (IndexError) or an `affected_rows` dict (KeyError) raises, which the
surrounding `try` of `_generate_mapping` converts into `None` overall. -/
def rowHead : ResultItem → Option String
  | .row (c :: _) => some c
  | .row [] => none
  | .affected _ => none

/-- `_generate_mapping`: only the mysql branch exists; `SHOW TABLES`, then a
`DESCRIBE` per table (each through the connector, which converts its own
errors into `[]`); any raise inside the loop aborts the whole mapping. -/
def generateMapping (st : MgrState) (o : Oracle) (db : String) :
    Option SchemaMap :=
  if db = "mysql" then
    let tables := (connectorExecuteQuery o st.connector db "SHOW TABLES" none).1
    (tables.foldlM (fun (acc : List (String × List String)) item => do
        let name ← rowHead item
        let cols := (connectorExecuteQuery o st.connector db ("DESCRIBE " ++ name) none).1
        let colNames ← cols.mapM rowHead
        pure (acc ++ [(name, colNames)])) []).map SchemaMap.mk
  else none

/-- `verify_mapping`: true when a mapping is already cached; otherwise, when
an active record exists, try to generate and cache one. -/
def verifyMapping (st : MgrState) (o : Oracle) (db : String) :
    Bool × MgrState :=
  if (assocGet st.db_mappings db).isSome then (true, st)
  else
    match assocGet st.connections db with
    | some rec =>
      if rec.active then
        match generateMapping st o db with
        | some m => (true, { st with db_mappings := assocSet st.db_mappings db m })
        | none => (false, st)
      else (false, st)
    | none => (false, st)

/-- `get_mapping`. -/
def getMapping (st : MgrState) (o : Oracle) (db : String) :
    Option SchemaMap × MgrState :=
  match verifyMapping st o db with
  | (true, st') => (assocGet st'.db_mappings db, st')
  | (false, st') => (none, st')

/-- `DBConnectionManager.execute_query`: connect first when no active record
is cached (note: the record is looked up under the kind as given, while
`connect` lowercases it); an unsuccessful connect degrades to `[]`. -/
def executeQuery (st : MgrState) (o : Oracle) (db : String) (query : String)
    (qparams : Option (List PVal)) : List ResultItem × MgrState :=
  let needConnect :=
    match assocGet st.connections db with
    | some rec => !rec.active
    | none => true
  if needConnect then
    let r := connect st o db none
    if r.success then
      ((connectorExecuteQuery o r.state.connector db query qparams).1, r.state)
    else ([], r.state)
  else
    ((connectorExecuteQuery o st.connector db query qparams).1, st)

/-- `DBConnectionManager.close`: one kind (guarded deletion of the record,
after asking the connector to close), or every kind followed by resetting
the table. -/
def close (st : MgrState) (o : Oracle) (dbType : Option String) : MgrState :=
  match dbType with
  | some db =>
    match assocGet st.connections db with
    | some _ =>
      let (_, cst') := connectorClose o st.connector db
      { st with connector := cst', connections := assocDel st.connections db }
    | none => st
  | none =>
    let cst' := st.connections.foldl
      (fun c kv => (connectorClose o c kv.1).2) st.connector
    { st with connector := cst', connections := [] }

/-! ### QueryBuilder (query_builder.py) -/

/-- `str()` rendering of a parameter value inside an f-string. -/
def pvalStr : PVal → String
  | .s v => v
  | .i n => toString n

/-- `db_connection.get('type', 'mysql').lower()`: raises (AttributeError)
when the value under `'type'` is not a string. -/
def getTypeLower (conn : Params) : Except Unit String :=
  match (assocGet conn "type").getD (.s "mysql") with
  | .s t => .ok (pyLower t)
  | .i _ => .error ()

/-- `_build_sql_generation_prompt`.  The final instruction block is a plain
(non-f) string in the source, so the literal text `\x7bdb_type\x7d` appears
in the prompt verbatim. -/
def buildSqlGenerationPrompt (naturalQuery : String) (conn : Params)
    (m : Option SchemaMap) : Except Unit String :=
  match getTypeLower conn with
  | .error e => .error e
  | .ok dbType =>
    let dbName := pvalStr ((assocGet conn "database").getD (.s ""))
    let base := "Como experto en bases de datos " ++ pyUpper dbType
      ++ ", genera una consulta SQL para la siguiente solicitud:\n\nSolicitud: "
      ++ naturalQuery ++ "\n\nBase de datos: " ++ dbName ++ "\n"
    let mapPart :=
      match m with
      | some sm =>
        "\nEstructura de la base de datos:\n"
          ++ String.join (sm.tables.map (fun t =>
              "\nTabla: " ++ t.1 ++ "\nColumnas: "
                ++ String.intercalate ", " t.2 ++ "\n"))
      | none => ""
    .ok (base ++ mapPart
      ++ "\nGenera ÚNICAMENTE código SQL válido para esta consulta.\nSolo devuelve la consulta SQL, sin explicaciones adicionales.\nUsa la sintaxis apropiada para \x7bdb_type\x7d.\n")

/-- `QueryBuilder.build_query`: prompt, model call, extraction.  A raise
from the provider propagates (there is no `try` around it). -/
def buildQuery (o : Oracle) (naturalQuery : String) (conn : Params)
    (m : Option SchemaMap) : Except Unit String := do
  let prompt ← buildSqlGenerationPrompt naturalQuery conn m
  let resp ← o.genText prompt
  pure (extractSqlFromResponse resp)

/-- The prompt of `QueryBuilder.explain_query`. -/
def explainPrompt (sqlQuery : String) (naturalQuery : String) : String :=
  "Explica la siguiente consulta SQL de manera sencilla:\n\nSQL: "
    ++ sqlQuery ++ "\n\nEsta consulta fue generada para responder a: \""
    ++ naturalQuery
    ++ "\"\n\nProporciona una explicación clara de lo que hace esta consulta SQL y cómo responde a la solicitud original.\n"

/-! ### DBAgent facade (agent.py) -/

/-- Value of a response-dict entry. -/
inductive RespVal where
  | s (v : String)
  | items (v : List ResultItem)
deriving DecidableEq, Repr

abbrev RespDict := List (String × RespVal)

/-- What `run` returns: the raw dict (direct mode) or its text
serialization (CrewAI pass-through mode). -/
inductive RunOutput where
  | dict (d : RespDict)
  | text (t : String)
deriving DecidableEq, Repr

/-- The value found under `"connection"`: a parameter dict, or some truthy
non-dict value (which `validate_input` rejects). -/
inductive ConnVal where
  | dict (c : Params)
  | nonDict
deriving DecidableEq, Repr

/-- Python truthiness of a connection value (`nonDict` stands for a truthy
non-dict). -/
def connTruthy : ConnVal → Bool
  | .dict c => c ≠ []
  | .nonDict => true

/-- A structured input dict: each field `none` models an absent key. -/
structure InputDict where
  prompt : Option String
  connection : Option ConnVal
deriving DecidableEq, Repr

/-- `run`'s `input_data`: bare string (CrewAI mode) or structured dict. -/
inductive RunInput where
  | str (s : String)
  | dict (d : InputDict)
deriving DecidableEq, Repr

/-- `DBAgent.validate_input`: the prompt key must exist with truthy value,
and the connection key must exist and hold a dict. -/
def validateInput (d : InputDict) : Bool :=
  match d.prompt with
  | none => false
  | some p =>
    if p = "" then false
    else
      match d.connection with
      | some (.dict _) => true
      | some .nonDict => false
      | none => false

/-- Escape of `"` and `\` inside a JSON string (ASCII fragment of
`json.dumps` escaping; no control or non-ASCII characters occur in the
strings this development evaluates). -/
def jsonEscape (s : String) : String :=
  s.data.foldl (fun acc c =>
    acc ++ (if c = '\\' then "\\\\"
            else if c = '"' then "\\\""
            else String.singleton c)) ""

/-- `json.dumps` of one fetched row (a tuple of strings) at indentation
prefix `ind`, with `indent=2`. -/
def jsonRowAt (ind : String) (r : Row) : String :=
  if r = [] then "[]"
  else "[\n"
    ++ String.intercalate ",\n"
        (r.map (fun s => ind ++ "  \"" ++ jsonEscape s ++ "\""))
    ++ "\n" ++ ind ++ "]"

/-- `json.dumps` of one result item at indentation prefix `ind`. -/
def jsonItemAt (ind : String) : ResultItem → String
  | .row r => jsonRowAt ind r
  | .affected n =>
    "\x7b\n" ++ ind ++ "  \"affected_rows\": " ++ toString n ++ "\n" ++ ind ++ "\x7d"

/-- `json.dumps(results, indent=2)`. -/
def jsonDumpsResults (items : List ResultItem) : String :=
  if items = [] then "[]"
  else "[\n"
    ++ String.intercalate ",\n" (items.map (fun it => "  " ++ jsonItemAt "  " it))
    ++ "\n]"

/-- String under a response key, with the f-string default (`N/A` or the
suggestion default).  Only `.s` values ever occur at the keys this is used
for. -/
def respGetStr (resp : RespDict) (k : String) (dflt : String) : String :=
  match assocGet resp k with
  | some (.s v) => v
  | some (.items _) => dflt
  | none => dflt

/-- The result list under `"results"` (only `.items` ever occurs there). -/
def respGetItems (resp : RespDict) : List ResultItem :=
  match assocGet resp "results" with
  | some (.items v) => v
  | _ => []

/-- `DBAgent._format_response`. -/
def formatResponse (resp : RespDict) (crewMode : Bool) : RunOutput :=
  if !crewMode then .dict resp
  else if (assocGet resp "error").isSome then
    .text ("ERROR: " ++ respGetStr resp "error" ""
      ++ "\nSugerencia: " ++ respGetStr resp "suggestion" "Intente con otra consulta")
  else
    .text (pyStrip ("\nConsulta SQL: " ++ respGetStr resp "query" "N/A"
      ++ "\n\nResultados: " ++ jsonDumpsResults (respGetItems resp)
      ++ "\n\nExplicación: " ++ respGetStr resp "explanation" "N/A" ++ "\n"))

/-- Whether `run` operates in CrewAI pass-through mode (`input_data` is a
bare string). -/
def isCrewMode : RunInput → Bool
  | .str _ => true
  | .dict _ => false

/-- The internal `input_dict` that `run` builds: in CrewAI mode the string
is the prompt and the connection comes from `kwargs` (defaulting to
`{"type": "mysql"}` when absent or falsy); in direct mode the dict is used
as given. -/
def runInputDict (input : RunInput) (kw : Option ConnVal) : InputDict :=
  match input with
  | .str s =>
    let dbc := kw.getD (.dict [])
    let dbc := if connTruthy dbc then dbc else .dict [("type", .s "mysql")]
    ⟨some s, some dbc⟩
  | .dict d => d

/-- `input_dict.get("connection", {})` as a parameter dict (validation
guarantees the dict case on every path that uses it). -/
def runConnParams (d : InputDict) : Params :=
  match d.connection with
  | some (.dict c) => c
  | _ => []

/-- `DBAgent.run`.  `kwConnection` models `kwargs.get("connection", {})` in
CrewAI mode (`none` = not passed).  The `Except` layer carries exceptions
that escape `run` itself: a non-string connection `type`, or a raise from
the model provider (neither is caught in the source). -/
def run (st : MgrState) (o : Oracle) (input : RunInput)
    (kwConnection : Option ConnVal) : Except Unit RunOutput × MgrState :=
  let crewMode := isCrewMode input
  let inputDict : InputDict := runInputDict input kwConnection
  if !validateInput inputDict then
    (.ok (formatResponse [("error", .s "Input inválido")] crewMode), st)
  else
    let prompt := inputDict.prompt.getD ""
    let dbConn : Params := runConnParams inputDict
    match getTypeLower dbConn with
    | .error e => (.error e, st)
    | .ok dbType =>
      let r := connect st o dbType (some dbConn)
      if !r.success then
        (.ok (formatResponse
          [("error", .s ("No se pudo establecer conexión: " ++ r.message)),
           ("suggestion", .s "Verifique las credenciales e intente nuevamente")]
          crewMode), r.state)
      else
        match verifyMapping r.state o dbType with
        | (false, st2) =>
          (.ok (formatResponse
            [("error", .s "No se pudo obtener la estructura de la base de datos"),
             ("suggestion", .s "Verifique los permisos y la conexión")]
            crewMode), st2)
        | (true, st2) =>
          let (mapping, st3) := getMapping st2 o dbType
          match buildSqlGenerationPrompt prompt dbConn mapping with
          | .error e => (.error e, st3)
          | .ok p1 =>
            match o.genText p1 with
            | .error e => (.error e, st3)
            | .ok resp1 =>
              let sql := extractSqlFromResponse resp1
              let (results, st4) := executeQuery st3 o dbType sql none
              match o.genText (explainPrompt sql prompt) with
              | .error e => (.error e, st4)
              | .ok expl =>
                (.ok (formatResponse
                  [("query", .s sql), ("results", .items results),
                   ("explanation", .s expl)] crewMode), st4)

/-! ## Helper lemmas -/

theorem assocGet_assocSet_self {α : Type} (l : List (String × α)) (k : String)
    (v : α) : assocGet (assocSet l k v) k = some v := by
  induction l with
  | nil => simp [assocGet, assocSet]
  | cons kv rest ih =>
    by_cases h : kv.1 = k
    · simp [assocGet, assocSet, h]
    · simp only [assocSet, h, if_false]
      simpa [assocGet, List.find?, h] using ih

theorem assocGet_assocDel_self {α : Type} (l : List (String × α))
    (k : String) : assocGet (assocDel l k) k = none := by
  induction l with
  | nil => rfl
  | cons kv rest ih =>
    by_cases h : kv.1 = k
    · simpa [assocDel, assocGet, h] using ih
    · simpa [assocDel, assocGet, List.find?, h] using ih

theorem assocGet_append {α : Type} (l₁ l₂ : List (String × α)) (k : String) :
    assocGet (l₁ ++ l₂) k =
      match assocGet l₁ k with
      | some v => some v
      | none => assocGet l₂ k := by
  induction l₁ with
  | nil => simp [assocGet]
  | cons kv rest ih =>
    by_cases h : kv.1 = k
    · simp [assocGet, List.find?, h]
    · simpa [assocGet, List.find?, h] using ih

theorem filter_isEmpty_eq_not_any {α : Type} (p : α → Bool) (l : List α) :
    (l.filter p).isEmpty = !(l.any p) := by
  induction l with
  | nil => rfl
  | cons a l ih =>
    by_cases h : p a <;> simp [List.filter_cons, List.any_cons, h, ih]

theorem extractFence_eq (l : List Char) :
    extractFence l = (firstSqlBlockContent l).map stripL := by
  unfold extractFence firstSqlBlockContent
  cases h1 : findSub fenceTagSql l with
  | none => rfl
  | some i =>
    cases h2 : findSub fenceClose (l.drop (i + 6)) with
    | none => simp [h2]
    | some j => simp [h2]

/-- C2: on every raw model response, SQL extraction returns the trimmed
content of the first sql-tagged fenced block when one exists; otherwise the
statement-keyword-filtered lines of the trimmed response joined by single
spaces when any survive; otherwise the full trimmed response.  The code's
extraction function coincides with the claim's description. -/
theorem extract_sql_matches_claim (r : String) :
    extractSqlFromResponse r = extractSqlClaim r := by
  show String.mk (extractSqlL r.data) = extractSqlClaim r
  unfold extractSqlL extractSqlClaim
  rw [extractFence_eq]
  cases h1 : firstSqlBlockContent r.data with
  | some c => rfl
  | none =>
    simp only [Option.map_none']
    have hany := filter_isEmpty_eq_not_any lineIsSql (splitOnNl (stripL r.data))
    by_cases h2 : (splitOnNl (stripL r.data)).any lineIsSql
    · rw [h2] at hany
      simp [hany, h2]
    · rw [Bool.not_eq_true] at h2
      rw [h2] at hany
      simp [hany, h2]

theorem envHostField_get_ne (env : Env) (k : String) (hk : k ≠ "host") :
    assocGet (envHostField env) k = none := by
  unfold envHostField
  cases assocGet env "MYSQL_HOST" with
  | none => rfl
  | some h =>
    by_cases hh : h = "" <;> simp [assocGet, List.find?, hh, Ne.symm hk]

theorem assocGet_cons_ne {α : Type} (kv : String × α) (l : List (String × α))
    (k : String) (h : kv.1 ≠ k) : assocGet (kv :: l) k = assocGet l k := by
  simp [assocGet, List.find?, h]

theorem envPortField_get_ne (env : Env) (k : String) (hk : k ≠ "port") :
    assocGet (envPortField env) k = none := by
  unfold envPortField
  cases assocGet env "MYSQL_PORT" with
  | none => rfl
  | some p =>
    by_cases hp : p = ""
    · simp [hp, assocGet]
    · cases hpi : pyToInt p <;> simp [hp, hpi, assocGet, List.find?, Ne.symm hk]

theorem envUserField_get_ne (env : Env) (k : String) (hk : k ≠ "user") :
    assocGet (envUserField env) k = none := by
  unfold envUserField
  cases assocGet env "MYSQL_USER" with
  | none => rfl
  | some u =>
    by_cases hu : u = "" <;> simp [assocGet, List.find?, hu, Ne.symm hk]

theorem envDatabaseField_get_ne (env : Env) (k : String) (hk : k ≠ "database") :
    assocGet (envDatabaseField env) k = none := by
  unfold envDatabaseField
  cases assocGet env "MYSQL_DATABASE" with
  | none => rfl
  | some d =>
    by_cases hd : d = "" <;> simp [assocGet, List.find?, hd, Ne.symm hk]

theorem envPasswordField_get (env : Env) :
    assocGet (envPasswordField env) "password" =
      (assocGet env "MYSQL_PASSWORD").map PVal.s := by
  unfold envPasswordField
  cases assocGet env "MYSQL_PASSWORD" <;> simp [assocGet, List.find?]

theorem envHostField_get_self (env : Env) (h : String)
    (hv : assocGet env "MYSQL_HOST" = some h) (hne : h ≠ "") :
    assocGet (envHostField env) "host" = some (.s h) := by
  unfold envHostField
  rw [hv]
  simp [assocGet, List.find?, hne]

theorem envHostField_ne_iff (env : Env) :
    envHostField env ≠ [] ↔
      ∃ h, assocGet env "MYSQL_HOST" = some h ∧ h ≠ "" := by
  unfold envHostField
  cases hv : assocGet env "MYSQL_HOST" with
  | none => simp
  | some h => by_cases hh : h = "" <;> simp [hh]

theorem envUserField_ne_iff (env : Env) :
    envUserField env ≠ [] ↔
      ∃ u, assocGet env "MYSQL_USER" = some u ∧ u ≠ "" := by
  unfold envUserField
  cases hv : assocGet env "MYSQL_USER" with
  | none => simp
  | some u => by_cases hu : u = "" <;> simp [hu]

/-- C4 (amended): the mysql environment tier emits a candidate if and only
if both `MYSQL_HOST` and `MYSQL_USER` are present with non-empty (truthy)
values — a present-but-empty value is treated like an absent key; the host
value is carried over verbatim; an empty-string `MYSQL_PASSWORD` still
yields a candidate whose password entry is the empty string, distinct from
the key being absent, in which case the candidate has no password entry. -/
theorem env_tier_mysql_amended (env : Env) :
    ((getEnvParams env "mysql").isSome ↔
      (∃ h, assocGet env "MYSQL_HOST" = some h ∧ h ≠ "")
      ∧ (∃ u, assocGet env "MYSQL_USER" = some u ∧ u ≠ ""))
    ∧ (∀ p, getEnvParams env "mysql" = some p →
        assocGet p "password" = (assocGet env "MYSQL_PASSWORD").map PVal.s)
    ∧ (∀ p h, getEnvParams env "mysql" = some p →
        assocGet env "MYSQL_HOST" = some h → h ≠ "" →
        assocGet p "host" = some (.s h)) := by
  refine ⟨?_, ?_, ?_⟩
  · rw [← envHostField_ne_iff, ← envUserField_ne_iff]
    unfold getEnvParams
    by_cases he : env = []
    · subst he
      simp [envHostField, envUserField, assocGet]
    · by_cases hcond : envHostField env ≠ [] ∧ envUserField env ≠ [] <;>
        simp [he, hcond]
  · intro p hp
    unfold getEnvParams at hp
    by_cases he : env = []
    · simp [he] at hp
    · by_cases hcond : envHostField env ≠ [] ∧ envUserField env ≠ []
      · simp [he, hcond] at hp
        subst hp
        have hH := envHostField_get_ne env "password" (by decide)
        have hP := envPortField_get_ne env "password" (by decide)
        have hU := envUserField_get_ne env "password" (by decide)
        have hD := envDatabaseField_get_ne env "password" (by decide)
        rw [assocGet_cons_ne _ _ _ (by decide)]
        simp only [assocGet_append, hH, hP, hU, hD, envPasswordField_get]
        cases hpw : assocGet env "MYSQL_PASSWORD" <;> simp
      · simp [he, hcond] at hp
  · intro p h hp hv hne
    unfold getEnvParams at hp
    by_cases he : env = []
    · simp [he] at hp
    · by_cases hcond : envHostField env ≠ [] ∧ envUserField env ≠ []
      · simp [he, hcond] at hp
        subst hp
        rw [assocGet_cons_ne _ _ _ (by decide)]
        simp only [assocGet_append, envHostField_get_self env h hv hne]
      · simp [he, hcond] at hp

/-- C4 (counterexample): with `MYSQL_HOST` present but empty and
`MYSQL_USER` present and non-empty, both keys are present in the snapshot,
yet the environment tier yields no candidate — refuting the claimed
presence-only if-and-only-if. -/
theorem env_tier_presence_refuted :
    assocGet [("MYSQL_HOST", ""), ("MYSQL_USER", "root")] "MYSQL_HOST" = some ""
    ∧ assocGet [("MYSQL_HOST", ""), ("MYSQL_USER", "root")] "MYSQL_USER" = some "root"
    ∧ getEnvParams [("MYSQL_HOST", ""), ("MYSQL_USER", "root")] "mysql" = none := by
  refine ⟨by decide, by decide, by decide⟩

/-- C4 witness: a concrete snapshot with truthy host/user and an
empty-string password yields a candidate carrying an empty password. -/
theorem env_tier_mysql_amended_witness :
    assocGet [("type", PVal.s "mysql"), ("host", PVal.s "h"),
      ("user", PVal.s "u"), ("password", PVal.s "")] "password"
      = some (PVal.s "") :=
  (env_tier_mysql_amended
      [("MYSQL_HOST", "h"), ("MYSQL_USER", "u"), ("MYSQL_PASSWORD", "")]).2.1
    _ (by decide)

/-! ## Resolution lemmas -/

theorem toList_some {α : Type} (a : α) : (some a).toList = [a] := rfl

theorem toList_none {α : Type} : (none : Option α).toList = [] := rfl

theorem connectorConnect_fail (o : Oracle) (cst : ConnectorState)
    (db : String) (p : Params) (h : attemptOk o db p = false) :
    connectorConnect o cst db p = (none, cst) := by
  unfold attemptOk connAttempt at h
  unfold connectorConnect
  by_cases hdb : pyLower db = "mysql"
  · simp only [hdb, if_true] at h ⊢
    cases hbp : buildConnParams p with
    | none => simp
    | some cp =>
      rw [hbp] at h
      cases hmc : o.mysqlConnect cp with
      | none => simp [hmc]
      | some hh => simp [hmc] at h
  · simp [hdb]

theorem connectorConnect_succ (o : Oracle) (cst : ConnectorState)
    (db : String) (p : Params) (h : Nat)
    (hok : connAttempt o db p = some h) :
    connectorConnect o cst db p = (some h, assocSet cst db h) := by
  unfold connAttempt at hok
  unfold connectorConnect
  by_cases hdb : pyLower db = "mysql"
  · simp only [hdb, if_true] at hok ⊢
    cases hbp : buildConnParams p with
    | none => rw [hbp] at hok; simp at hok
    | some cp =>
      rw [hbp] at hok
      simp only [Option.some_bind] at hok
      simp [hok]
  · simp [hdb] at hok

theorem tryConnection_fail (st : MgrState) (o : Oracle) (db : String)
    (p : Params) (h : attemptOk o db p = false) :
    tryConnection st o db p = (false, "No se pudo establecer conexión", st) := by
  unfold tryConnection
  rw [connectorConnect_fail o st.connector db p h]

theorem tryConnection_succ (st : MgrState) (o : Oracle) (db : String)
    (p : Params) (h : Nat) (hok : connAttempt o db p = some h) :
    tryConnection st o db p = (true, "Conexión exitosa a " ++ db,
      { st with connections := assocSet st.connections db ⟨true, h, p⟩,
                connector := assocSet st.connector db h }) := by
  unfold tryConnection
  rw [connectorConnect_succ o st.connector db p h hok]

theorem runCandidates_spec (o : Oracle) (db : String) :
    ∀ (l : List Params) (st : MgrState),
      ((runCandidates st o db l).attempts = takeThrough (attemptOk o db) l)
      ∧ ((runCandidates st o db l).success = l.any (attemptOk o db))
      ∧ ((runCandidates st o db l).success = true →
          ∃ rec, assocGet (runCandidates st o db l).state.connections db = some rec
            ∧ rec.active = true
            ∧ some rec.params = l.find? (attemptOk o db))
      ∧ (l.any (attemptOk o db) = false → (runCandidates st o db l).state = st)
  | [], st => by simp [runCandidates, takeThrough]
  | p :: ps, st => by
    by_cases hok : attemptOk o db p
    · obtain ⟨h, hsome⟩ := Option.isSome_iff_exists.mp hok
      refine ⟨?_, ?_, ?_, ?_⟩
      · simp [runCandidates, tryConnection_succ st o db p h hsome,
          takeThrough, hok]
      · simp [runCandidates, tryConnection_succ st o db p h hsome,
          List.any_cons, hok]
      · intro _
        refine ⟨⟨true, h, p⟩, ?_, rfl, ?_⟩
        · simp [runCandidates, tryConnection_succ st o db p h hsome,
            assocGet_assocSet_self]
        · simp [List.find?_cons, hok]
      · intro hany
        simp [List.any_cons, hok] at hany
    · have hok' : attemptOk o db p = false := by simpa using hok
      have ih := runCandidates_spec o db ps st
      refine ⟨?_, ?_, ?_, ?_⟩
      · simp [runCandidates, tryConnection_fail st o db p hok',
          takeThrough, hok', ih.1]
      · simp [runCandidates, tryConnection_fail st o db p hok',
          List.any_cons, hok', ih.2.1]
      · intro hsucc
        simp only [runCandidates, tryConnection_fail st o db p hok'] at hsucc ⊢
        obtain ⟨rec, h1, h2, h3⟩ := ih.2.2.1 hsucc
        exact ⟨rec, h1, h2, by simp [List.find?_cons, hok', h3]⟩
      · intro hany
        simp only [List.any_cons, hok', Bool.false_or] at hany
        simp only [runCandidates, tryConnection_fail st o db p hok']
        exact ih.2.2.2 hany

theorem connectSysTier_eq (st : MgrState) (o : Oracle) (db : String)
    (att : List Params) :
    connectSysTier st o db att =
      { runCandidates st o db (getSystemParams st.system_info db).toList with
        attempts := att
          ++ (runCandidates st o db (getSystemParams st.system_info db).toList).attempts } := by
  unfold connectSysTier
  cases hs : getSystemParams st.system_info db with
  | none => simp [toList_none, runCandidates]
  | some sp =>
    simp only [toList_some]
    by_cases hok : attemptOk o db sp
    · obtain ⟨h, hsome⟩ := Option.isSome_iff_exists.mp hok
      simp [runCandidates, tryConnection_succ st o db sp h hsome]
    · have hok' : attemptOk o db sp = false := by simpa using hok
      simp [runCandidates, tryConnection_fail st o db sp hok']

theorem connectEnvTier_eq (st : MgrState) (o : Oracle) (db : String)
    (att : List Params) :
    connectEnvTier st o db att =
      { runCandidates st o db
          ((getEnvParams st.env_vars db).toList
            ++ (getSystemParams st.system_info db).toList) with
        attempts := att
          ++ (runCandidates st o db
              ((getEnvParams st.env_vars db).toList
                ++ (getSystemParams st.system_info db).toList)).attempts } := by
  unfold connectEnvTier
  cases he : getEnvParams st.env_vars db with
  | none =>
    simp only [toList_none, List.nil_append]
    rw [connectSysTier_eq]
  | some ep =>
    simp only [toList_some, List.singleton_append]
    by_cases hok : attemptOk o db ep
    · obtain ⟨h, hsome⟩ := Option.isSome_iff_exists.mp hok
      simp [runCandidates, tryConnection_succ st o db ep h hsome]
    · have hok' : attemptOk o db ep = false := by simpa using hok
      rw [tryConnection_fail st o db ep hok']
      simp only [runCandidates, tryConnection_fail st o db ep hok']
      rw [connectSysTier_eq]
      simp [List.append_assoc]

theorem connect_eq_runCandidates (st : MgrState) (o : Oracle)
    (dbType : String) (custom : Option Params)
    (hstep : connectStep1 st o (pyLower dbType) = (st, false)) :
    connect st o dbType custom =
      runCandidates st o (pyLower dbType)
        (candidates st (pyLower dbType) custom) := by
  unfold connect candidates
  simp only [hstep]
  cases custom with
  | none =>
    simp only [List.nil_append]
    rw [connectEnvTier_eq]
    simp
  | some cp =>
    by_cases hcp : cp = []
    · simp only [hcp, ne_eq, not_true_eq_false, if_false, List.nil_append]
      rw [connectEnvTier_eq]
      simp
    · simp only [ne_eq, hcp, not_false_eq_true, if_true, List.cons_append,
        List.nil_append]
      by_cases hok : attemptOk o (pyLower dbType) cp
      · obtain ⟨h, hsome⟩ := Option.isSome_iff_exists.mp hok
        simp [runCandidates, tryConnection_succ st o (pyLower dbType) cp h hsome]
      · have hok' : attemptOk o (pyLower dbType) cp = false := by simpa using hok
        rw [tryConnection_fail st o (pyLower dbType) cp hok']
        simp only [runCandidates, tryConnection_fail st o (pyLower dbType) cp hok']
        rw [connectEnvTier_eq]
        simp

theorem connectStep1_of_noActive (st : MgrState) (o : Oracle) (db : String)
    (hNoActive : ∀ rec, assocGet st.connections db = some rec →
      rec.active = false) :
    connectStep1 st o db = (st, false) := by
  unfold connectStep1
  cases hrec : assocGet st.connections db with
  | none => rfl
  | some rec => simp [hNoActive rec hrec]

theorem connectorIsConnected_isOk (o : Oracle) (cst : ConnectorState)
    (db : String) : ∃ b, connectorIsConnected o cst db = .ok b := by
  unfold connectorIsConnected
  cases assocGet cst db with
  | none => exact ⟨false, rfl⟩
  | some h =>
    dsimp only
    cases hX : (if pyLower db = "mysql" then o.handleAlive h
        else if pyLower db = "postgresql" then
          match o.pgClosed h with
          | .ok c => .ok (!c)
          | .error e => .error e
        else if pyLower db = "sqlite" then
          match o.sqliteProbe h with
          | .ok _ => .ok true
          | .error _ => .ok false
        else .ok false) with
    | ok b => exact ⟨b, rfl⟩
    | error e => exact ⟨false, rfl⟩

/-! ## Claim C1 -/

/-- C1: with no active cached record for the kind, `connect` attempts the
resolution candidates in strict precedence order — explicit caller
parameters, then the environment candidate, then the capability-based
candidate — short-circuiting on the first success: the attempted list is
exactly the prefix of the candidate list through the first success, the
call succeeds iff some candidate succeeds, and on success the stored record
holds exactly the first succeeding candidate's parameters (so no
lower-precedence tier is attempted after a higher tier succeeds). -/
theorem connect_tier_precedence (st : MgrState) (o : Oracle) (dbType : String)
    (custom : Option Params)
    (hNoActive : ∀ rec, assocGet st.connections (pyLower dbType) = some rec →
      rec.active = false) :
    ((connect st o dbType custom).attempts
        = takeThrough (attemptOk o (pyLower dbType))
            (candidates st (pyLower dbType) custom))
    ∧ ((connect st o dbType custom).success
        = (candidates st (pyLower dbType) custom).any
            (attemptOk o (pyLower dbType)))
    ∧ ((connect st o dbType custom).success = true →
        ∃ rec, assocGet (connect st o dbType custom).state.connections
            (pyLower dbType) = some rec
          ∧ rec.active = true
          ∧ some rec.params = (candidates st (pyLower dbType) custom).find?
              (attemptOk o (pyLower dbType))) := by
  have hstep := connectStep1_of_noActive st o (pyLower dbType) hNoActive
  have heq := connect_eq_runCandidates st o dbType custom hstep
  have hspec := runCandidates_spec o (pyLower dbType)
      (candidates st (pyLower dbType) custom) st
  rw [heq]
  exact ⟨hspec.1, hspec.2.1, hspec.2.2.1⟩

/-- Oracle used by witnesses: every collaborator call succeeds. -/
def oA : Oracle :=
  ⟨fun _ => some 1, fun _ => .ok true, fun _ => .ok true, fun _ => .ok (),
   fun _ => true,
   fun _ q _ => if q = "SHOW TABLES" then .ok ([["t1"]], 0) else .ok ([["c1"]], 0),
   fun _ _ => true, fun _ => .ok "```sql\nSELECT 1\n```"⟩

/-- State with only environment configuration available. -/
def stEnvOnly : MgrState :=
  ⟨[], [], none, [("MYSQL_HOST", "h"), ("MYSQL_USER", "u")], []⟩

/-- C1 witness: fresh manager, environment candidate only, connector
succeeds — exactly the environment candidate is attempted and connect
succeeds. -/
theorem connect_tier_precedence_witness :
    (connect stEnvOnly oA "mysql" none).attempts
      = [[("type", PVal.s "mysql"), ("host", PVal.s "h"), ("user", PVal.s "u")]]
    ∧ (connect stEnvOnly oA "mysql" none).success = true := by
  have h := connect_tier_precedence stEnvOnly oA "mysql" none
    (by intro rec hr; simp [assocGet, List.find?, stEnvOnly] at hr)
  refine ⟨?_, ?_⟩
  · rw [h.1]; decide
  · rw [h.2.1]; decide

/-! ## Claim C3 -/

/-- C3 (amended): when the cached record for the kind is active, an alive
probe makes `connect` succeed immediately with the reuse message, unchanged
state and no new attempt; a probe reporting the handle dead does not demote
the record — `connect` merely falls through to the resolution tiers, and if
every candidate fails the state (record still marked active) is unchanged;
the probe never raises, so the demote-on-raise branch is unreachable. -/
theorem connect_reuse_amended (st : MgrState) (o : Oracle) (dbType : String)
    (custom : Option Params) (rec : ConnRecord)
    (hrec : assocGet st.connections (pyLower dbType) = some rec)
    (hact : rec.active = true) :
    (connectorIsConnected o st.connector (pyLower dbType) = .ok true →
      connect st o dbType custom =
        ⟨true, "Reutilizando conexión existente a " ++ pyLower dbType, st, []⟩)
    ∧ (connectorIsConnected o st.connector (pyLower dbType) = .ok false →
        ((connect st o dbType custom).attempts
            = takeThrough (attemptOk o (pyLower dbType))
                (candidates st (pyLower dbType) custom))
          ∧ ((candidates st (pyLower dbType) custom).any
                (attemptOk o (pyLower dbType)) = false →
              (connect st o dbType custom).state = st))
    ∧ (∀ e, connectorIsConnected o st.connector (pyLower dbType) ≠ .error e) := by
  refine ⟨?_, ?_, ?_⟩
  · intro hprobe
    have hstep : connectStep1 st o (pyLower dbType) = (st, true) := by
      unfold connectStep1
      rw [hrec]
      simp [hact, hprobe]
    unfold connect
    simp [hstep]
  · intro hprobe
    have hstep : connectStep1 st o (pyLower dbType) = (st, false) := by
      unfold connectStep1
      rw [hrec]
      simp [hact, hprobe]
    have heq := connect_eq_runCandidates st o dbType custom hstep
    have hspec := runCandidates_spec o (pyLower dbType)
        (candidates st (pyLower dbType) custom) st
    rw [heq]
    exact ⟨hspec.1, hspec.2.2.2⟩
  · intro e
    obtain ⟨b, hb⟩ := connectorIsConnected_isOk o st.connector (pyLower dbType)
    rw [hb]
    simp

/-- Record and state for the C3 scenario. -/
def recC3 : ConnRecord := ⟨true, 7, []⟩

def stC3 : MgrState := ⟨[("mysql", recC3)], [], none, [], [("mysql", 7)]⟩

/-- Oracle whose liveness probe reports the handle dead and whose connect
attempts all fail. -/
def oDead : Oracle :=
  ⟨fun _ => none, fun _ => .ok false, fun _ => .ok true, fun _ => .ok (),
   fun _ => true, fun _ _ _ => .ok ([], 0), fun _ _ => true, fun _ => .ok ""⟩

/-- C3 (counterexample): active cached record, liveness probe reports the
handle dead, every resolution tier fails: afterwards the record for mysql
is still marked active — it was not demoted to inactive as claimed. -/
theorem connect_dead_probe_no_demotion :
    (connect stC3 oDead "mysql" none).success = false
    ∧ assocGet (connect stC3 oDead "mysql" none).state.connections "mysql"
        = some ⟨true, 7, []⟩ := by
  exact ⟨by decide, by decide⟩

/-- C3 witness: active record and alive probe — connect reuses the handle
with the reuse message, no attempts, unchanged state. -/
theorem connect_reuse_amended_witness :
    connect stC3 oA "mysql" none =
      ⟨true, "Reutilizando conexión existente a mysql", stC3, []⟩ :=
  (connect_reuse_amended stC3 oA "mysql" none recC3 (by decide) (by decide)).1
    (by rfl)

/-! ## Claim C5 -/

/-- C5 (amended): for the mysql and postgresql kinds present in the
capability report the third tier synthesizes exactly the claimed candidate
(host 127.0.0.1, user root resp. postgres, empty password, port = first
detected port else 3306 resp. 5432); and in scenario B (report shows mysql
with port 3306, no environment variables, no explicit parameters, no active
record) that candidate is the only one attempted.  For kinds outside the
two families the user defaults to postgres and the candidate may lack a
port entirely (see the counterexample). -/
theorem system_tier_amended :
    (∀ (sys : SystemInfo) (info : DBInfo), assocGet sys "mysql" = some info →
      getSystemParams (some sys) "mysql" =
        some [("type", .s "mysql"), ("host", .s "127.0.0.1"),
              ("user", .s "root"), ("password", .s ""),
              ("port", .i (info.ports_detected.headD 3306))])
    ∧ (∀ (sys : SystemInfo) (info : DBInfo),
        assocGet sys "postgresql" = some info →
        getSystemParams (some sys) "postgresql" =
          some [("type", .s "postgresql"), ("host", .s "127.0.0.1"),
                ("user", .s "postgres"), ("password", .s ""),
                ("port", .i (info.ports_detected.headD 5432))])
    ∧ (∀ (st : MgrState) (o : Oracle) (sys : SystemInfo) (info : DBInfo),
        st.env_vars = [] → st.system_info = some sys →
        assocGet sys "mysql" = some info → info.ports_detected = [3306] →
        (∀ rec, assocGet st.connections "mysql" = some rec →
          rec.active = false) →
        (connect st o "mysql" none).attempts =
          [[("type", .s "mysql"), ("host", .s "127.0.0.1"),
            ("user", .s "root"), ("password", .s ""), ("port", .i 3306)]]) := by
  have h1 : ∀ (sys : SystemInfo) (info : DBInfo),
      assocGet sys "mysql" = some info →
      getSystemParams (some sys) "mysql" =
        some [("type", .s "mysql"), ("host", .s "127.0.0.1"),
              ("user", .s "root"), ("password", .s ""),
              ("port", .i (info.ports_detected.headD 3306))] := by
    intro sys info h
    unfold getSystemParams
    simp only [h]
    cases hp : info.ports_detected with
    | nil => simp
    | cons p ps => simp
  refine ⟨h1, ?_, ?_⟩
  · intro sys info h
    unfold getSystemParams
    simp only [h]
    cases hp : info.ports_detected with
    | nil => simp
    | cons p ps => simp
  · intro st o sys info henv hsys hmy hports hNoActive
    have hl : pyLower "mysql" = "mysql" := rfl
    have hstep := connectStep1_of_noActive st o (pyLower "mysql")
      (by rw [hl]; exact hNoActive)
    have heq := connect_eq_runCandidates st o "mysql" none hstep
    rw [heq, (runCandidates_spec o (pyLower "mysql")
      (candidates st (pyLower "mysql") none) st).1]
    have hcand : candidates st (pyLower "mysql") none =
        [[("type", .s "mysql"), ("host", .s "127.0.0.1"),
          ("user", .s "root"), ("password", .s ""), ("port", .i 3306)]] := by
      unfold candidates
      rw [hl, henv, hsys]
      have hgs := h1 sys info hmy
      rw [hgs, hports]
      simp [getEnvParams]
    rw [hcand]
    by_cases hp : attemptOk o (pyLower "mysql")
        [("type", .s "mysql"), ("host", .s "127.0.0.1"),
         ("user", .s "root"), ("password", .s ""), ("port", .i 3306)] <;>
      simp [takeThrough, hp]

/-- C5 (counterexample): the capability report can contain kinds outside
the MySQL/Postgres families (the detector also probes sqlite, mongodb,
redis, ...); for such a kind with no detected ports the synthesized
candidate carries user `postgres` and no port key at all — there is no
hardcoded well-known default port for it, contrary to the claim's
universal statement over every kind in the report. -/
theorem system_tier_nonfamily_refuted :
    getSystemParams (some [("sqlite", ⟨[], "client_only", true⟩)]) "sqlite"
      = some [("type", PVal.s "sqlite"), ("host", PVal.s "127.0.0.1"),
              ("user", PVal.s "postgres"), ("password", PVal.s "")]
    ∧ assocGet [("type", PVal.s "sqlite"), ("host", PVal.s "127.0.0.1"),
        ("user", PVal.s "postgres"), ("password", PVal.s "")] "port" = none := by
  exact ⟨by decide, by decide⟩

/-- Scenario-B state: capability report with mysql on port 3306, nothing
else configured. -/
def stSysB : MgrState :=
  ⟨[], [], some [("mysql", ⟨[3306], "fully_available", true⟩)], [], []⟩

/-- C5 witness: scenario B evaluated — the synthesized mysql candidate is
the only one attempted. -/
theorem system_tier_amended_witness :
    (connect stSysB oA "mysql" none).attempts =
      [[("type", PVal.s "mysql"), ("host", PVal.s "127.0.0.1"),
        ("user", PVal.s "root"), ("password", PVal.s ""),
        ("port", PVal.i 3306)]] :=
  system_tier_amended.2.2 stSysB oA
    [("mysql", ⟨[3306], "fully_available", true⟩)]
    ⟨[3306], "fully_available", true⟩ rfl rfl (by decide) (by decide)
    (by intro rec h; simp [assocGet, List.find?, stSysB] at h)

/-! ## Claim C6 -/

theorem verifyMapping_true_imp (st : MgrState) (o : Oracle) (db : String)
    (h : (verifyMapping st o db).1 = true) :
    (assocGet st.db_mappings db).isSome
    ∨ ∃ rec, assocGet st.connections db = some rec ∧ rec.active = true := by
  unfold verifyMapping at h
  by_cases hc : (assocGet st.db_mappings db).isSome
  · exact Or.inl hc
  · simp only [hc, if_false] at h
    cases hrec : assocGet st.connections db with
    | none => rw [hrec] at h; simp at h
    | some rec =>
      rw [hrec] at h
      by_cases ha : rec.active = true
      · exact Or.inr ⟨rec, rfl, ha⟩
      · simp [ha] at h

/-- C6 (amended): `get_mapping(K)` returns a mapping only if a mapping for
K is already cached or a ConnectionRecord for K exists and is active; and
`close` discards records but not cached mappings, so a mapping cached while
the connection was live is still returned after `close(K)`. -/
theorem mapping_cached_or_active (st : MgrState) (o : Oracle) (db : String) :
    (∀ m, (getMapping st o db).1 = some m →
      (assocGet st.db_mappings db).isSome
      ∨ ∃ rec, assocGet st.connections db = some rec ∧ rec.active = true)
    ∧ (∀ k, (close st o k).db_mappings = st.db_mappings) := by
  constructor
  · intro m hm
    unfold getMapping at hm
    cases hv : verifyMapping st o db with
    | mk b st' =>
      rw [hv] at hm
      cases b with
      | false => simp at hm
      | true => exact verifyMapping_true_imp st o db (by rw [hv])
  · intro k
    unfold close
    cases k with
    | none => rfl
    | some db' =>
      cases hrec : assocGet st.connections db' with
      | none => simp [hrec]
      | some rec =>
        cases hcc : connectorClose o st.connector db' with
        | mk b cst' => simp [hrec, hcc]

/-- Fresh state for the C6 scenario. -/
def stC6a : MgrState := ⟨[], [], none, [], []⟩

/-- After a successful explicit-params connect. -/
def stC6b : MgrState :=
  (connect stC6a oA "mysql" (some [("host", PVal.s "h")])).state

/-- After the schema mapping was generated and cached. -/
def stC6c : MgrState := (verifyMapping stC6b oA "mysql").2

/-- After closing the mysql connection. -/
def stC6d : MgrState := close stC6c oA (some "mysql")

/-- C6 (counterexample): connect succeeds, a mapping is generated and
cached, then the connection is closed: no record for mysql remains, yet
`get_mapping` still returns the cached mapping — refuting the claimed
invariant that a mapping is returned only while a record exists and is
active (and that every operation, including close, preserves it). -/
theorem mapping_survives_close :
    (connect stC6a oA "mysql" (some [("host", PVal.s "h")])).success = true
    ∧ (verifyMapping stC6b oA "mysql").1 = true
    ∧ assocGet stC6d.connections "mysql" = none
    ∧ (getMapping stC6d oA "mysql").1 = some ⟨[("t1", ["c1"])]⟩ :=
  ⟨by decide, by decide, by decide, by decide⟩

/-- C6 witness: the amended disjunction evaluated at the closed state — the
mapping is still cached there. -/
theorem mapping_cached_or_active_witness :
    (assocGet stC6d.db_mappings "mysql").isSome
    ∨ ∃ rec, assocGet stC6d.connections "mysql" = some rec
        ∧ rec.active = true :=
  (mapping_cached_or_active stC6d oA "mysql").1 ⟨[("t1", ["c1"])]⟩ (by decide)

/-! ## Claim C8 -/

/-- C8: `execute_query` ensures an active record by invoking `connect` when
none is cached: when that connect fails, the result degrades to the empty
list (no exception — the embedding is a total function); when an active
record is cached, no connect occurs (state unchanged) and a raising execute
collaborator likewise degrades the result to the empty list. -/
theorem execute_query_degrades (st : MgrState) (o : Oracle) (db q : String)
    (qp : Option (List PVal)) :
    ((∀ rec, assocGet st.connections db = some rec → rec.active = false) →
      (connect st o db none).success = false →
      executeQuery st o db q qp = ([], (connect st o db none).state))
    ∧ (∀ rec, assocGet st.connections db = some rec → rec.active = true →
        (executeQuery st o db q qp).2 = st
        ∧ (o.exec db q qp = .error () →
            (executeQuery st o db q qp).1 = [])) := by
  constructor
  · intro hNoActive hfail
    unfold executeQuery
    have hneed : (match assocGet st.connections db with
        | some rec => !rec.active
        | none => true) = true := by
      cases hrec : assocGet st.connections db with
      | none => rfl
      | some rec => simp [hNoActive rec hrec]
    simp [hneed, hfail]
  · intro rec hrec hact
    have hneed : (match assocGet st.connections db with
        | some rec => !rec.active
        | none => true) = false := by
      simp [hrec, hact]
    constructor
    · unfold executeQuery
      simp [hneed]
    · intro herr
      unfold executeQuery
      simp only [hneed, Bool.false_eq_true, if_false]
      unfold connectorExecuteQuery
      cases hg : assocGet st.connector db with
      | none => simp
      | some h => simp [herr]

/-- Oracle identical to `oA` except that every cursor execution raises. -/
def oExecErr : Oracle := { oA with exec := fun _ _ _ => .error () }

/-- C8 witness: with an active cached record and a raising execute
collaborator, the manager returns the empty list and the state is
unchanged. -/
theorem execute_query_degrades_witness :
    (executeQuery stC3 oExecErr "mysql" "SELECT 1" none).2 = stC3
    ∧ ((executeQuery stC3 oExecErr "mysql" "SELECT 1" none).1 = []) :=
  have h := (execute_query_degrades stC3 oExecErr "mysql" "SELECT 1" none).2
    recC3 (by decide) (by decide)
  ⟨h.1, h.2 (by rfl)⟩

/-! ## Claim C9 -/

/-- C9: `close(K)` discards the cached record for K; closing a never-opened
kind is a no-op (so a second close equals the first — idempotence, and the
embedding is a total function, so no error is produced); `close()` with no
kind discards every record. -/
theorem close_terminal_idempotent (st : MgrState) (o : Oracle) (db : String) :
    assocGet (close st o (some db)).connections db = none
    ∧ (assocGet st.connections db = none → close st o (some db) = st)
    ∧ close (close st o (some db)) o (some db) = close st o (some db)
    ∧ (close st o none).connections = [] := by
  have hnoop : ∀ s : MgrState, assocGet s.connections db = none →
      close s o (some db) = s := by
    intro s hn
    unfold close
    simp [hn]
  have h1 : assocGet (close st o (some db)).connections db = none := by
    unfold close
    cases hrec : assocGet st.connections db with
    | none => simp [hrec]
    | some rec =>
      cases hcc : connectorClose o st.connector db with
      | mk b cst' => simp [hrec, hcc, assocGet_assocDel_self]
  exact ⟨h1, hnoop st, hnoop _ h1, rfl⟩

/-- C9 witness: closing a never-opened kind on a fresh manager is a no-op. -/
theorem close_terminal_idempotent_witness :
    close stC6a oA (some "mysql") = stC6a :=
  (close_terminal_idempotent stC6a oA "mysql").2.1 (by decide)

/-! ## Claim C10 -/

/-- C10: for a statement whose trimmed upper-cased text does not begin with
SELECT, SHOW or DESCRIBE, a successful connector-level execute commits the
transaction and returns exactly the one-element list `[{affected_rows: n}]`;
and through the manager's public row-sequence interface a caller with an
active cached record receives that same single-dictionary shape. -/
theorem nonquery_affected_rows_shape (st : MgrState) (o : Oracle)
    (db q : String) (qp : Option (List PVal)) (h : Nat) (rows : List Row)
    (n : Int) (rec : ConnRecord)
    (hrec : assocGet st.connections db = some rec) (hact : rec.active = true)
    (hconn : assocGet st.connector db = some h)
    (hexec : o.exec db q qp = .ok (rows, n))
    (hcommit : o.commitOk db q = true)
    (hq : isResultQuery q = false) :
    connectorExecuteQuery o st.connector db q qp = ([ResultItem.affected n], true)
    ∧ executeQuery st o db q qp = ([ResultItem.affected n], st) := by
  have hcx : connectorExecuteQuery o st.connector db q qp
      = ([ResultItem.affected n], true) := by
    unfold connectorExecuteQuery
    rw [hconn, hexec]
    simp [hq, hcommit]
  refine ⟨hcx, ?_⟩
  unfold executeQuery
  have hneed : (match assocGet st.connections db with
      | some rec => !rec.active
      | none => true) = false := by
    simp [hrec, hact]
  simp [hneed, hcx]

/-- Oracle whose cursor execution reports 3 affected rows. -/
def oUpd : Oracle := { oA with exec := fun _ _ _ => .ok ([], 3) }

/-- C10 witness: an UPDATE through the manager with an active record yields
exactly `[{affected_rows: 3}]`. -/
theorem nonquery_affected_rows_shape_witness :
    executeQuery stC3 oUpd "mysql" "UPDATE t SET x = 1" none
      = ([ResultItem.affected 3], stC3) :=
  (nonquery_affected_rows_shape stC3 oUpd "mysql" "UPDATE t SET x = 1" none
    7 [] 3 recC3 (by decide) (by decide) (by decide) (by rfl) (by rfl)
    (by decide)).2

/-! ## Claim C7 -/

/-- C7 (amended): `run` validates the input before any I/O — an empty or
missing prompt, or a connection value that is not a dict, yields the
structured "Input inválido" result with unchanged state; a failing connect
and a failing schema introspection are converted to structured error
results; when both model calls succeed, the result is the structured
`{query, results, explanation}` record (or its text serialization in
pass-through mode).  But an exception raised by the model-generation
collaborator propagates uncaught out of `run` (and so does the exception
from a non-string connection `type`): collaborator failures in the model
calls are NOT converted to structured errors at this boundary. -/
theorem run_error_boundary (st : MgrState) (o : Oracle) (input : RunInput)
    (kw : Option ConnVal) :
    (validateInput (runInputDict input kw) = false →
      run st o input kw =
        (.ok (formatResponse [("error", .s "Input inválido")]
          (isCrewMode input)), st))
    ∧ (∀ dbt, validateInput (runInputDict input kw) = true →
        getTypeLower (runConnParams (runInputDict input kw)) = .ok dbt →
        (connect st o dbt
          (some (runConnParams (runInputDict input kw)))).success = false →
        run st o input kw =
          (.ok (formatResponse
            [("error", .s ("No se pudo establecer conexión: "
              ++ (connect st o dbt
                  (some (runConnParams (runInputDict input kw)))).message)),
             ("suggestion", .s "Verifique las credenciales e intente nuevamente")]
            (isCrewMode input)),
           (connect st o dbt
             (some (runConnParams (runInputDict input kw)))).state))
    ∧ (∀ dbt, validateInput (runInputDict input kw) = true →
        getTypeLower (runConnParams (runInputDict input kw)) = .ok dbt →
        (connect st o dbt
          (some (runConnParams (runInputDict input kw)))).success = true →
        (verifyMapping
          (connect st o dbt
            (some (runConnParams (runInputDict input kw)))).state o dbt).1
          = false →
        run st o input kw =
          (.ok (formatResponse
            [("error", .s "No se pudo obtener la estructura de la base de datos"),
             ("suggestion", .s "Verifique los permisos y la conexión")]
            (isCrewMode input)),
           (verifyMapping
             (connect st o dbt
               (some (runConnParams (runInputDict input kw)))).state o dbt).2))
    ∧ (∀ dbt p1, validateInput (runInputDict input kw) = true →
        getTypeLower (runConnParams (runInputDict input kw)) = .ok dbt →
        (connect st o dbt
          (some (runConnParams (runInputDict input kw)))).success = true →
        (verifyMapping
          (connect st o dbt
            (some (runConnParams (runInputDict input kw)))).state o dbt).1
          = true →
        buildSqlGenerationPrompt ((runInputDict input kw).prompt.getD "")
          (runConnParams (runInputDict input kw))
          (getMapping
            (verifyMapping
              (connect st o dbt
                (some (runConnParams (runInputDict input kw)))).state o dbt).2
            o dbt).1 = .ok p1 →
        o.genText p1 = .error () →
        (run st o input kw).1 = .error ())
    ∧ (∀ dbt p1 r1 ex, validateInput (runInputDict input kw) = true →
        getTypeLower (runConnParams (runInputDict input kw)) = .ok dbt →
        (connect st o dbt
          (some (runConnParams (runInputDict input kw)))).success = true →
        (verifyMapping
          (connect st o dbt
            (some (runConnParams (runInputDict input kw)))).state o dbt).1
          = true →
        buildSqlGenerationPrompt ((runInputDict input kw).prompt.getD "")
          (runConnParams (runInputDict input kw))
          (getMapping
            (verifyMapping
              (connect st o dbt
                (some (runConnParams (runInputDict input kw)))).state o dbt).2
            o dbt).1 = .ok p1 →
        o.genText p1 = .ok r1 →
        o.genText (explainPrompt (extractSqlFromResponse r1)
          ((runInputDict input kw).prompt.getD "")) = .ok ex →
        ∃ res st4, run st o input kw =
          (.ok (formatResponse
            [("query", .s (extractSqlFromResponse r1)),
             ("results", .items res), ("explanation", .s ex)]
            (isCrewMode input)), st4)) := by
  refine ⟨?_, ?_, ?_, ?_, ?_⟩
  · intro hval
    unfold run
    simp [hval]
  · intro dbt hval htype hconn
    unfold run
    simp [hval, htype, hconn]
  · intro dbt hval htype hconn hver
    unfold run
    simp only [hval, Bool.not_true, Bool.false_eq_true, if_false, htype,
      hconn, Bool.not_false, if_true]
    cases hv : verifyMapping
        (connect st o dbt
          (some (runConnParams (runInputDict input kw)))).state o dbt with
    | mk b st2 =>
      rw [hv] at hver
      simp only at hver
      subst hver
      rfl
  · intro dbt p1 hval htype hconn hver hbuild hgen
    unfold run
    simp only [hval, Bool.not_true, Bool.false_eq_true, if_false, htype,
      hconn, Bool.not_false, if_true]
    cases hv : verifyMapping
        (connect st o dbt
          (some (runConnParams (runInputDict input kw)))).state o dbt with
    | mk b st2 =>
      rw [hv] at hver
      simp only at hver
      subst hver
      rw [hv] at hbuild
      simp only at hbuild
      simp only [hbuild, hgen]
  · intro dbt p1 r1 ex hval htype hconn hver hbuild hgen1 hgen2
    unfold run
    simp only [hval, Bool.not_true, Bool.false_eq_true, if_false, htype,
      hconn, Bool.not_false, if_true]
    cases hv : verifyMapping
        (connect st o dbt
          (some (runConnParams (runInputDict input kw)))).state o dbt with
    | mk b st2 =>
      rw [hv] at hver
      simp only at hver
      subst hver
      rw [hv] at hbuild
      simp only at hbuild
      simp only [hbuild, hgen1, hgen2]
      exact ⟨_, _, rfl⟩

/-- Oracle identical to `oA` except the model provider raises. -/
def oGenErr : Oracle := { oA with genText := fun _ => .error () }

/-- A valid direct-mode input. -/
def runInputC7 : RunInput :=
  .dict ⟨some "list", some (.dict [("type", PVal.s "mysql")])⟩

/-- C7 (counterexample): valid input; connect and schema introspection
succeed; the model-generation collaborator raises — and the exception
propagates out of `run` instead of being converted to a structured error
result, refuting the claim that nothing propagates past the facade. -/
theorem run_generation_exception_escapes :
    (run stC6a oGenErr runInputC7 none).1 = .error () := by
  rfl

/-- C7 witness: a missing prompt is rejected before any I/O with the
structured error result and unchanged state. -/
theorem run_error_boundary_witness :
    run stC6a oA (.dict ⟨none, none⟩) none =
      (.ok (formatResponse [("error", .s "Input inválido")] false), stC6a) :=
  (run_error_boundary stC6a oA (.dict ⟨none, none⟩) none).1 (by rfl)

end DB
